import Mathlib

/-!
Verification development for the backend of the Welders_Arc_Map repository
(src/backend/main.py). The subsystem under study is the bounded-retention
event log: the request-telemetry middleware, the retention sweeper, the
filtered log query / bulk delete surface, and the realtime broadcast hub.

Modelling conventions:
* The `system_logs` SQLite table is a `Store`: a list of `LogEvent` rows plus
  the next AUTOINCREMENT id.
* SQLite stores `timestamp` as TEXT and compares it with memcmp; the
  timestamps written by the code are ASCII ISO-8601 strings, for which memcmp
  agrees with lexicographic comparison of the character list.  Timestamps are
  therefore modelled as `List Char` ordered by the lexicographic order on
  lists (`String` itself is kept out of comparisons because its order does
  not reduce in the kernel).
* Wall-clock reads (`datetime.utcnow()`) and duration measurement are outside
  a shallow embedding; the current instant / elapsed duration are passed to
  each operation as an explicit argument.
* A fallible database write is modelled with `Except String`: the Python code
  raising an exception corresponds to an `.error` value propagating.
-/

/-- Log retention period constant from src/backend/main.py line 51
(`LOG_RETENTION_HOURS = 48`). -/
def LOG_RETENTION_HOURS : Nat := 48

/-- One row of the `system_logs` table (schema at src/backend/main.py
lines 118-132).  `duration_ms` is a REAL column; it is modelled as a rational
number (no claim depends on float rounding). -/
structure LogEvent where
  id : Nat
  timestamp : List Char
  profile_id : Option Int
  username : String
  level : String
  category : Option String
  endpoint : Option String
  method : Option String
  message : String
  request_body : Option String
  response_status : Option Nat
  duration_ms : Option ℚ
  deriving DecidableEq

/-- The `system_logs` table: its rows plus the next AUTOINCREMENT id. -/
structure Store where
  rows : List LogEvent
  nextId : Nat
  deriving DecidableEq

/-- Python `username or 'anonymous'` from src/backend/main.py line 77:
`None` and the empty string are both falsy and fall back to `anonymous`. -/
def usernameOrAnon : Option String → String
  | none => "anonymous"
  | some u => if u = "" then "anonymous" else u

/-- `log_event` (src/backend/main.py lines 63-93): INSERT one row into
`system_logs`.  The row's `timestamp` is `datetime.utcnow().isoformat()`,
passed here as `now`; the structlog side effect has no observable state. -/
def log_event (st : Store) (now : List Char) (level category message : String)
    (profile_id : Option Int) (username : Option String)
    (endpoint method request_body : Option String)
    (response_status : Option Nat) (duration_ms : Option ℚ) : Store :=
  { rows := st.rows ++
      [{ id := st.nextId
         timestamp := now
         profile_id := profile_id
         username := usernameOrAnon username
         level := level
         category := some category
         endpoint := endpoint
         method := method
         message := message
         request_body := request_body
         response_status := response_status
         duration_ms := duration_ms }]
    nextId := st.nextId + 1 }

/-- `cleanup_old_logs` (src/backend/main.py lines 96-107): the retention
sweep.  The source computes `cutoff = (utcnow() - timedelta(hours=48)).isoformat()`
(time arithmetic outside the embedding, so `cutoff` is an argument), runs
`DELETE FROM system_logs WHERE timestamp < ?`, and returns the number of
rows deleted (`cursor.rowcount`). -/
def cleanup_old_logs (cutoff : List Char) (st : Store) : Store × Nat :=
  ({ st with rows := st.rows.filter (fun r => !decide (r.timestamp < cutoff)) },
   (st.rows.filter (fun r => decide (r.timestamp < cutoff))).length)

/-- The optional query filters of `GET /api/logs`
(src/backend/main.py lines 268-272). -/
structure LogFilters where
  profile_id : Option Int
  level : Option String
  category : Option String
  since : Option (List Char)
  until_ : Option (List Char)
  deriving DecidableEq

/-- The filters when no query parameter is supplied. -/
def noFilters : LogFilters :=
  { profile_id := none, level := none, category := none
    since := none, until_ := none }

/-- The WHERE clause built by `get_logs` (src/backend/main.py lines 278-295).
Each supplied filter appends one conjunct.  The source guards the string
filters with Python truthiness (`if level:` etc.), so an empty-string value
behaves like an absent filter; `profile_id` is guarded with `is not None`. -/
def matchesFilters (f : LogFilters) (r : LogEvent) : Bool :=
  (match f.profile_id with
   | none => true
   | some p => decide (r.profile_id = some p)) &&
  (match f.level with
   | none => true
   | some l => if l = "" then true else decide (r.level = l)) &&
  (match f.category with
   | none => true
   | some c => if c = "" then true else decide (r.category = some c)) &&
  (match f.since with
   | none => true
   | some s => if s = [] then true else decide (s ≤ r.timestamp)) &&
  (match f.until_ with
   | none => true
   | some u => if u = [] then true else decide (r.timestamp ≤ u))

/-- The rows matching the WHERE clause, in table order: the result set of the
first SELECT of `get_logs` before ORDER BY / LIMIT / OFFSET. -/
def eligibleLogs (f : LogFilters) (st : Store) : List LogEvent :=
  st.rows.filter (matchesFilters f)

/-- The COUNT(*) query of `get_logs` (src/backend/main.py lines 304-323):
it rebuilds the identical WHERE clause, with no LIMIT/OFFSET. -/
def countMatching (f : LogFilters) (st : Store) : Nat :=
  (st.rows.filter (matchesFilters f)).length

/-- Ordering relation of `ORDER BY timestamp DESC`: `a` precedes `b` when
`b.timestamp ≤ a.timestamp`. -/
def byTimestampDesc (a b : LogEvent) : Prop := b.timestamp ≤ a.timestamp

instance : DecidableRel byTimestampDesc :=
  fun a b => inferInstanceAs (Decidable (b.timestamp ≤ a.timestamp))

instance : IsTotal LogEvent byTimestampDesc :=
  ⟨fun a b => le_total b.timestamp a.timestamp⟩

instance : IsTrans LogEvent byTimestampDesc :=
  ⟨fun _ _ _ hab hbc => le_trans hbc hab⟩

/-- `ORDER BY timestamp DESC` (src/backend/main.py line 297), modelled as a
comparison sort by the descending-timestamp relation. -/
def sortByTimestampDesc (l : List LogEvent) : List LogEvent :=
  List.insertionSort byTimestampDesc l

/-- SQLite `LIMIT ? OFFSET ?` semantics (src/backend/main.py lines 297-298):
a negative LIMIT means no upper bound, a negative OFFSET behaves like 0. -/
def applyLimitOffset (limit offset : Int) (l : List LogEvent) : List LogEvent :=
  if limit < 0 then l.drop (if offset < 0 then 0 else offset.toNat)
  else (l.drop (if offset < 0 then 0 else offset.toNat)).take limit.toNat

/-- The JSON object returned by `GET /api/logs`
(src/backend/main.py lines 326-332). -/
structure GetLogsResult where
  logs : List LogEvent
  total : Nat
  limit : Int
  offset : Int
  retention_hours : Nat
  deriving DecidableEq

/-- `get_logs` (src/backend/main.py lines 264-332): filtered SELECT ordered by
timestamp descending with LIMIT/OFFSET, plus a second COUNT(*) query over the
same filters for `total`. -/
def get_logs (f : LogFilters) (limit offset : Int) (st : Store) : GetLogsResult :=
  { logs := applyLimitOffset limit offset (sortByTimestampDesc (eligibleLogs f st))
    total := countMatching f st
    limit := limit
    offset := offset
    retention_hours := LOG_RETENTION_HOURS }

/-- The DELETE statement of `clear_logs` (src/backend/main.py lines 341-346):
with a truthy `before` it runs `DELETE FROM system_logs WHERE timestamp < ?`,
otherwise (`None` or empty string, both falsy) `DELETE FROM system_logs`.
Returns the new table plus `cursor.rowcount`. -/
def deleteWhereBefore (before : Option (List Char)) (st : Store) : Store × Nat :=
  match before with
  | some b =>
    if b = [] then ({ st with rows := [] }, st.rows.length)
    else
      ({ st with rows := st.rows.filter (fun r => !decide (r.timestamp < b)) },
       (st.rows.filter (fun r => decide (r.timestamp < b))).length)
  | none => ({ st with rows := [] }, st.rows.length)

/-- `clear_logs` (src/backend/main.py lines 335-351): run the DELETE, then
emit one audit event via `log_event` with the current instant `now` as its
timestamp, and return the response `{message, deleted}` (here: the store after
the audit insert, the deleted count, and the message text). -/
def clear_logs (before : Option (List Char)) (now : List Char) (st : Store) :
    Store × Nat × String :=
  let p := deleteWhereBefore before st
  let st2 := log_event p.1 now ("info") ("SYSTEM")
    ("Cleared " ++ toString p.2 ++ " log entries")
    none none (some ("/api/logs")) (some ("DELETE")) none none none
  (st2, p.2, "Deleted " ++ toString p.2 ++ " log entries")

/-- Severity classification of `LoggingMiddleware.dispatch`
(src/backend/main.py lines 194-200): `status >= 500` is `error`,
`status >= 400` is `warning`, anything else is `info`. -/
def classifyLevel (status : Nat) : String :=
  if 500 ≤ status then "error" else if 400 ≤ status then "warning" else "info"

/-- List-level string prefix test (used for `path.startswith("/static")`). -/
def startsWithChars : List Char → List Char → Bool
  | _, [] => true
  | [], _ :: _ => false
  | a :: as, b :: bs => a == b && startsWithChars as bs

/-- The logging exclusion test of `LoggingMiddleware.dispatch`
(src/backend/main.py line 204):
`not path.startswith("/static") and path != "/api/health"`. -/
def shouldLogPath (path : List Char) : Bool :=
  !startsWithChars path (("/static").data) && !(path == ("/api/health").data)

/-- Python `str.isdigit` restricted to ASCII decimal digits (the only digits
that can appear in an HTTP header value the code feeds to it). -/
def isDigitChar (c : Char) : Bool := decide (('0') ≤ c) && decide (c ≤ ('9'))

/-- Decimal value of a digit string, as computed by Python `int` on a digit
string. -/
def digitsVal (l : List Char) : Nat :=
  l.foldl (fun acc c => acc * 10 + (c.toNat - ('0').toNat)) 0

/-- Header-to-profile-id conversion of `LoggingMiddleware.dispatch`
(src/backend/main.py line 209):
`int(profile_id) if profile_id and profile_id.isdigit() else None`.
An absent header, an empty header (falsy) or a non-digit header yields
`None`. -/
def parseProfileIdHeader : Option String → Option Int
  | none => none
  | some s =>
    if s.data ≠ [] ∧ s.data.all isDigitChar = true then some (digitsVal s.data)
    else none

/-- The response object a request handler produced; the middleware reads its
status code and must hand the very same object back to the caller. -/
structure Response where
  status_code : Nat
  body : String
  deriving DecidableEq

/-- `LoggingMiddleware.dispatch` (src/backend/main.py lines 171-218) after the
wrapped handler has produced `response`.  `writeOk` is the fate of the
`system_logs` INSERT performed by `log_event`: the source calls `log_event`
with no exception handler, so a failing INSERT raises and the exception
propagates out of `dispatch` (modelled as `.error`); only when the INSERT
succeeds is the handler's response returned.  `request_body` is the raw body
text (truncated here to 1000 characters as on line 184), `duration_ms` the
measured elapsed time (measurement itself is outside the embedding). -/
def LoggingMiddleware.dispatch (writeOk : Bool) (st : Store) (now : List Char)
    (method : String) (path : List Char)
    (profile_id_header : Option String) (username_header : Option String)
    (request_body : Option String) (response : Response) (duration_ms : ℚ) :
    Except String (Store × Response) :=
  let level := classifyLevel response.status_code
  if shouldLogPath path then
    if writeOk then
      .ok (log_event st now level ("API")
            (method ++ " " ++ String.mk path)
            (parseProfileIdHeader profile_id_header)
            (some (Option.getD username_header ("anonymous")))
            (some (String.mk path)) (some method)
            (Option.map (fun b => String.mk (b.data.take 1000)) request_body)
            (some response.status_code) (some duration_ms),
           response)
    else .error ("PersistenceError")
  else .ok (st, response)

/-- `ConnectionManager` (src/backend/main.py lines 513-528).  Connections are
identified by abstract ids; `active_connections` is the Python list. -/
structure ConnectionManager where
  active_connections : List Nat
  deriving DecidableEq

/-- `ConnectionManager.connect` (line 516-518): append the accepted
connection. -/
def ConnectionManager.connect (m : ConnectionManager) (ws : Nat) : ConnectionManager :=
  { active_connections := m.active_connections ++ [ws] }

/-- `ConnectionManager.disconnect` (line 519-520): `list.remove`, which drops
the first occurrence (in the modelled flows the connection is present and
the list holds no duplicates, each accept yielding a fresh object). -/
def ConnectionManager.disconnect (m : ConnectionManager) (ws : Nat) : ConnectionManager :=
  { active_connections := m.active_connections.erase ws }

/-- One broadcast tick: every connection in the active set at tick time runs
one iteration of its `websocket_realtime` send loop
(src/backend/main.py lines 530-543).  `sendOk c` is the fate of
`websocket.send_json` on connection `c`; the loop's `except` handler turns a
failed send into `manager.disconnect` for that connection only.  Returns the
hub after the tick together with the list of connections a send was attempted
to (everyone active at tick time). -/
def sendTick (sendOk : Nat → Bool) (m : ConnectionManager) :
    ConnectionManager × List Nat :=
  (m.active_connections.foldl
    (fun acc c => if sendOk c then acc else acc.disconnect c) m,
   m.active_connections)

/-- A run of consecutive broadcast ticks: for each tick its own send-fate
oracle; returns the final hub and, per tick, the connections sent to. -/
def runTicks : List (Nat → Bool) → ConnectionManager →
    ConnectionManager × List (List Nat)
  | [], m => (m, [])
  | f :: fs, m =>
    let p := sendTick f m
    let q := runTicks fs p.1
    (q.1, p.2 :: q.2)

/-- Raw (undecoded) query-string parameters of `GET /api/logs`, before the
framework coerces them to the types declared on
src/backend/main.py lines 266-272. -/
structure RawQuery where
  limit : Option String
  offset : Option String
  profile_id : Option String
  level : Option String
  category : Option String
  since : Option String
  until_ : Option String
  deriving DecidableEq

/-- The decoded parameters the `get_logs` handler body receives. -/
structure GetLogsParams where
  limit : Int
  offset : Int
  filters : LogFilters
  deriving DecidableEq

/-- Integer decoding of a query-string value (optional sign followed by at
least one decimal digit), as performed by the framework for parameters
declared `int`. -/
def parseIntRaw (s : String) : Option Int :=
  match s.data with
  | '-' :: rest =>
    if rest ≠ [] ∧ rest.all isDigitChar = true then some (-(digitsVal rest : Int))
    else none
  | l =>
    if l ≠ [] ∧ l.all isDigitChar = true then some ((digitsVal l : Int))
    else none

/-- Modelled from the spec: decoding of `limit: int = 100`
(src/backend/main.py line 266) — absent means the default 100, non-integer
text is a client-input error (422); the coercion is performed by the web
framework, which is not part of the repository. -/
def parseLimitParam : Option String → Except String Int
  | none => .ok 100
  | some s =>
    match parseIntRaw s with
    | some v => .ok v
    | none => .error ("ClientInputError")

/-- Modelled from the spec: decoding of `offset: int = 0`
(src/backend/main.py line 267) — absent means the default 0, non-integer text
is a client-input error. -/
def parseOffsetParam : Option String → Except String Int
  | none => .ok 0
  | some s =>
    match parseIntRaw s with
    | some v => .ok v
    | none => .error ("ClientInputError")

/-- Modelled from the spec: decoding of `profile_id: Optional[int]`
(src/backend/main.py line 268) — absent stays absent, non-integer text is a
client-input error. -/
def parseProfileParam : Option String → Except String (Option Int)
  | none => .ok none
  | some s =>
    match parseIntRaw s with
    | some v => .ok (some v)
    | none => .error ("ClientInputError")

/-- Modelled from the spec: the parameter validation that the framework
performs from the type declarations of `get_logs`
(src/backend/main.py lines 265-272).  The integer parameters are decoded (or
defaulted) as above; `level`, `category`, `since`, `until` are declared
`Optional[str]` and are passed through with no validation of any kind. -/
def validate_get_logs_query (q : RawQuery) : Except String GetLogsParams :=
  match parseLimitParam q.limit, parseOffsetParam q.offset,
        parseProfileParam q.profile_id with
  | .ok l, .ok o, .ok p =>
    .ok { limit := l, offset := o
          filters :=
            { profile_id := p
              level := q.level
              category := q.category
              since := Option.map (fun s => s.data) q.since
              until_ := Option.map (fun s => s.data) q.until_ } }
  | .error e, _, _ => .error e
  | _, .error e, _ => .error e
  | _, _, .error e => .error e

/-! ### Concrete fixtures used by the witness theorems -/

/-- A fresh empty `system_logs` table. -/
def emptyStore : Store := { rows := [], nextId := 1 }

/-- Sample instant, ISO-8601 as written by `datetime.utcnow().isoformat()`. -/
def tsA : List Char := ("2026-01-01T00:00:00").data

/-- Sample instant, one day after `tsA`. -/
def tsB : List Char := ("2026-01-02T00:00:00").data

/-- Sample instant, one day after `tsB`. -/
def tsC : List Char := ("2026-01-03T00:00:00").data

/-- Sample error-level record, the older of the two error records. -/
def errRec1 : LogEvent :=
  { id := 1, timestamp := tsA, profile_id := none, username := "anonymous"
    level := "error", category := some ("API"), endpoint := some ("/a")
    method := some ("GET"), message := "m1", request_body := none
    response_status := some 500, duration_ms := none }

/-- Sample error-level record, the most recent error record. -/
def errRec2 : LogEvent :=
  { errRec1 with id := 2, timestamp := tsB, message := "m2" }

/-- Sample warning-level record. -/
def warnRec : LogEvent :=
  { errRec1 with id := 3, timestamp := tsC, level := "warning"
                 response_status := some 404, message := "m3" }

/-- The store of the spec scenario: two error records and one warning
record. -/
def scenarioStore : Store := { rows := [errRec1, errRec2, warnRec], nextId := 4 }

/-- The filters of the query `level=error`. -/
def errFilter : LogFilters :=
  { profile_id := none, level := some ("error"), category := none
    since := none, until_ := none }

/-- A sample handler response with status 200. -/
def resp200 : Response := { status_code := 200, body := "ok" }

/-- A sample handler response with status 503. -/
def resp503 : Response := { status_code := 503, body := "oops" }

/-- A hub with three active connections. -/
def hub3 : ConnectionManager := { active_connections := [1, 2, 3] }

/-- A send oracle under which exactly connection 2 fails. -/
def okNot2 : Nat → Bool := fun c => decide (c ≠ 2)

/-- A raw query whose `since` value is not a timestamp at all. -/
def rawSinceBad : RawQuery :=
  { limit := none, offset := none, profile_id := none, level := none
    category := none, since := some ("not-a-timestamp"), until_ := none }

/-! ### Helper lemmas -/

theorem applyLimitOffset_sublist (limit offset : Int) (l : List LogEvent) :
    (applyLimitOffset limit offset l).Sublist l := by
  unfold applyLimitOffset
  split
  · exact List.drop_sublist _ _
  · exact (List.take_sublist _ _).trans (List.drop_sublist _ _)

theorem mem_get_logs_logs {f : LogFilters} {limit offset : Int} {st : Store}
    {r : LogEvent} (h : r ∈ (get_logs f limit offset st).logs) :
    r ∈ eligibleLogs f st := by
  have h1 : r ∈ sortByTimestampDesc (eligibleLogs f st) :=
    (applyLimitOffset_sublist limit offset _).subset h
  exact (List.perm_insertionSort byTimestampDesc (eligibleLogs f st)).mem_iff.mp h1

/-! ### Claim theorems -/

/-- C2: for every sweep of `cleanup_old_logs` with cutoff `now − 48h`: after
the sweep no record with `timestamp < cutoff` remains; every record with
`timestamp ≥ cutoff` that existed before still exists unchanged; nothing is
added; and the returned count is exactly the number of records deleted. -/
theorem C2_retention_sweep (cutoff : List Char) (st : Store) :
    (∀ r ∈ (cleanup_old_logs cutoff st).1.rows, ¬ r.timestamp < cutoff)
  ∧ (∀ r ∈ st.rows, cutoff ≤ r.timestamp → r ∈ (cleanup_old_logs cutoff st).1.rows)
  ∧ (∀ r ∈ (cleanup_old_logs cutoff st).1.rows, r ∈ st.rows)
  ∧ (cleanup_old_logs cutoff st).2 + (cleanup_old_logs cutoff st).1.rows.length
      = st.rows.length := by
  refine ⟨?_, ?_, ?_, ?_⟩
  · intro r hr
    have := (List.mem_filter.mp hr).2
    simpa using this
  · intro r hr hle
    refine List.mem_filter.mpr ⟨hr, ?_⟩
    simpa using not_lt.mpr hle
  · intro r hr
    exact (List.mem_filter.mp hr).1
  · have := List.length_eq_length_filter_add
      (l := st.rows) (fun r => decide (r.timestamp < cutoff))
    simp only [cleanup_old_logs]
    omega

/-- Witness for C2 at a concrete store: the record at the cutoff boundary
survives the sweep and the sweep reports one deletion (the `tsA` record). -/
theorem C2_retention_sweep_witness :
    errRec2 ∈ (cleanup_old_logs tsB scenarioStore).1.rows
  ∧ (cleanup_old_logs tsB scenarioStore).2
      + (cleanup_old_logs tsB scenarioStore).1.rows.length
      = scenarioStore.rows.length :=
  ⟨(C2_retention_sweep tsB scenarioStore).2.1 errRec2 (by decide) (by decide),
   (C2_retention_sweep tsB scenarioStore).2.2.2⟩

/-- C4: the `total` field of `GET /api/logs` counts every record satisfying
the supplied filters, independently of `limit` and `offset`; in the spec
scenario (`level=error`, `limit=1`, `offset=0`, two error records and one
warning record) exactly the most recent error record is returned and
`total = 2`. -/
theorem C4_total_ignores_pagination (f : LogFilters) (st : Store)
    (limit offset limit2 offset2 : Int) :
    (get_logs f limit offset st).total = (eligibleLogs f st).length
  ∧ (get_logs f limit offset st).total = (get_logs f limit2 offset2 st).total
  ∧ (get_logs errFilter 1 0 scenarioStore).logs = [errRec2]
  ∧ (get_logs errFilter 1 0 scenarioStore).total = 2 :=
  ⟨rfl, rfl, by decide, by decide⟩

/-- C5: `DELETE /api/logs` with no `before` empties the table (only the fresh
audit record is inserted afterwards) and reports the full count; with
`before = T` it removes exactly the records with `timestamp < T`, keeps every
record with `timestamp ≥ T`, adds nothing else, and reports the number
removed. -/
theorem C5_bulk_delete (st : Store) (now T : List Char) (r : LogEvent)
    (hT : T ≠ []) :
    ((deleteWhereBefore none st).1.rows = []
      ∧ (clear_logs none now st).2.1 = st.rows.length)
  ∧ (r ∈ st.rows → r.timestamp < T → r ∉ (deleteWhereBefore (some T) st).1.rows)
  ∧ (r ∈ st.rows → T ≤ r.timestamp → r ∈ (deleteWhereBefore (some T) st).1.rows)
  ∧ (r ∈ (deleteWhereBefore (some T) st).1.rows → r ∈ st.rows)
  ∧ (clear_logs (some T) now st).2.1
      = (st.rows.filter (fun x => decide (x.timestamp < T))).length := by
  refine ⟨⟨rfl, rfl⟩, ?_, ?_, ?_, ?_⟩
  · intro _ hlt hmem
    simp only [deleteWhereBefore, if_neg hT] at hmem
    have := (List.mem_filter.mp hmem).2
    simp at this
    exact absurd hlt (not_lt.mpr this)
  · intro hr hle
    simp only [deleteWhereBefore, if_neg hT]
    refine List.mem_filter.mpr ⟨hr, ?_⟩
    simpa using not_lt.mpr hle
  · intro hmem
    simp only [deleteWhereBefore, if_neg hT] at hmem
    exact (List.mem_filter.mp hmem).1
  · simp [clear_logs, deleteWhereBefore, if_neg hT]

/-- Witness for C5 at a concrete store with cutoff `tsB`: the strictly older
record is removed, the boundary record is kept, and the reported count is
the number of removed records. -/
theorem C5_bulk_delete_witness :
    errRec1 ∉ (deleteWhereBefore (some tsB) scenarioStore).1.rows
  ∧ errRec2 ∈ (deleteWhereBefore (some tsB) scenarioStore).1.rows
  ∧ (clear_logs (some tsB) tsC scenarioStore).2.1
      = (scenarioStore.rows.filter (fun x => decide (x.timestamp < tsB))).length :=
  ⟨(C5_bulk_delete scenarioStore tsC tsB errRec1 (by decide)).2.1
      (by decide) (by decide),
   (C5_bulk_delete scenarioStore tsC tsB errRec2 (by decide)).2.2.1
      (by decide) (by decide),
   (C5_bulk_delete scenarioStore tsC tsB errRec1 (by decide)).2.2.2.2⟩

/-- C8: every `DELETE /api/logs` call appends exactly one audit record after
the delete has executed; its `timestamp` is the current instant `now` and its
message reports the count removed, so the audit record itself is present in
the store after the operation (it is never removed by the delete that
produced it). -/
theorem C8_delete_audit (before : Option (List Char)) (now : List Char)
    (st : Store) :
    ∃ audit : LogEvent,
      (clear_logs before now st).1.rows
          = (deleteWhereBefore before st).1.rows ++ [audit]
    ∧ audit.timestamp = now
    ∧ audit.message
        = "Cleared " ++ toString (clear_logs before now st).2.1 ++ " log entries"
    ∧ audit ∈ (clear_logs before now st).1.rows
    ∧ (clear_logs before now st).1.rows.length
        = (deleteWhereBefore before st).1.rows.length + 1 := by
  refine ⟨_, rfl, rfl, rfl, ?_, ?_⟩
  · simp [clear_logs, log_event]
  · simp [clear_logs, log_event]

/-- C10: the `since` and `until` query filters are inclusive bounds — a
record whose timestamp equals the supplied value satisfies them — while the
bulk delete's `before` cutoff is strict: a record whose timestamp equals
`before` is kept and only strictly older records are deleted. -/
theorem C10_inclusive_bounds (r : LogEvent) (t : List Char) (st : Store)
    (ht : t ≠ []) :
    (matchesFilters { noFilters with since := some t } r = true ↔ t ≤ r.timestamp)
  ∧ (matchesFilters { noFilters with until_ := some t } r = true ↔ r.timestamp ≤ t)
  ∧ (r.timestamp = t →
      matchesFilters { noFilters with since := some t } r = true
      ∧ matchesFilters { noFilters with until_ := some t } r = true)
  ∧ (r ∈ st.rows → r.timestamp = t → r ∈ (deleteWhereBefore (some t) st).1.rows)
  ∧ (r ∈ st.rows → r.timestamp < t → r ∉ (deleteWhereBefore (some t) st).1.rows)
  := by
  have hsince : matchesFilters { noFilters with since := some t } r = true
      ↔ t ≤ r.timestamp := by
    simp [matchesFilters, noFilters, if_neg ht]
  have huntil : matchesFilters { noFilters with until_ := some t } r = true
      ↔ r.timestamp ≤ t := by
    simp [matchesFilters, noFilters, if_neg ht]
  refine ⟨hsince, huntil, ?_, ?_, ?_⟩
  · intro heq
    exact ⟨hsince.mpr (le_of_eq heq.symm), huntil.mpr (le_of_eq heq)⟩
  · intro hr heq
    simp only [deleteWhereBefore, if_neg ht]
    refine List.mem_filter.mpr ⟨hr, ?_⟩
    simp [heq]
  · intro _ hlt hmem
    simp only [deleteWhereBefore, if_neg ht] at hmem
    have := (List.mem_filter.mp hmem).2
    simp at this
    exact absurd hlt (not_lt.mpr this)

/-- Witness for C10 at the boundary: a record stamped exactly `tsB` satisfies
both `since = tsB` and `until = tsB`, survives `before = tsB`, while the
strictly older record is deleted by `before = tsB`. -/
theorem C10_inclusive_bounds_witness :
    (matchesFilters { noFilters with since := some tsB } errRec2 = true
      ∧ matchesFilters { noFilters with until_ := some tsB } errRec2 = true)
  ∧ errRec2 ∈ (deleteWhereBefore (some tsB) scenarioStore).1.rows
  ∧ errRec1 ∉ (deleteWhereBefore (some tsB) scenarioStore).1.rows :=
  ⟨(C10_inclusive_bounds errRec2 tsB scenarioStore (by decide)).2.2.1 (by decide),
   (C10_inclusive_bounds errRec2 tsB scenarioStore (by decide)).2.2.2.1
      (by decide) (by decide),
   (C10_inclusive_bounds errRec1 tsB scenarioStore (by decide)).2.2.2.2
      (by decide) (by decide)⟩

/-- C3: a record appears in the page returned by `GET /api/logs` only if it
satisfies every supplied filter; a record is eligible (matches the WHERE
clause) iff it is in the store and satisfies every supplied filter (filters
compose with AND, an absent filter imposes no constraint); with no filters
every record is eligible; the returned list is ordered by timestamp
descending; and whenever the page covers the whole eligible set
(`offset = 0` and the eligible count fits in `limit`), membership in the
returned list is exactly the conjunction of the supplied filters. -/
theorem C3_conjunctive_filters_ordering (f : LogFilters) (limit offset : Int)
    (st : Store) (r : LogEvent) :
    (r ∈ (get_logs f limit offset st).logs →
      r ∈ st.rows ∧ matchesFilters f r = true)
  ∧ (r ∈ eligibleLogs f st ↔ r ∈ st.rows ∧ matchesFilters f r = true)
  ∧ matchesFilters noFilters r = true
  ∧ List.Pairwise (fun a b => b.timestamp ≤ a.timestamp)
      (get_logs f limit offset st).logs
  ∧ (offset = 0 → (eligibleLogs f st).length ≤ limit.toNat →
      (r ∈ (get_logs f limit offset st).logs ↔
        r ∈ st.rows ∧ matchesFilters f r = true)) := by
  have hmem : ∀ x : LogEvent, x ∈ eligibleLogs f st ↔
      x ∈ st.rows ∧ matchesFilters f x = true := by
    intro x
    exact List.mem_filter
  refine ⟨?_, hmem r, rfl, ?_, ?_⟩
  · intro h
    exact (hmem r).mp (mem_get_logs_logs h)
  · have hs : List.Pairwise byTimestampDesc
        (sortByTimestampDesc (eligibleLogs f st)) :=
      List.sorted_insertionSort byTimestampDesc (eligibleLogs f st)
    exact (List.Pairwise.sublist (applyLimitOffset_sublist limit offset _) hs).imp
      (fun h => h)
  · intro hoff hlen
    subst hoff
    have hlenEq : (sortByTimestampDesc (eligibleLogs f st)).length
        = (eligibleLogs f st).length :=
      (List.perm_insertionSort byTimestampDesc (eligibleLogs f st)).length_eq
    have hall : (get_logs f limit 0 st).logs
        = sortByTimestampDesc (eligibleLogs f st) := by
      show applyLimitOffset limit 0 _ = _
      unfold applyLimitOffset
      split
      · simp
      · rename_i hneg
        simp only [show ¬ ((0 : Int) < 0) by omega, if_false]
        simp only [Int.toNat_zero, List.drop_zero]
        exact List.take_of_length_le (by omega)
    rw [hall]
    unfold sortByTimestampDesc
    rw [List.mem_insertionSort]
    exact hmem r

/-- Witness for C3 at the scenario store: the older error record is eligible
under `level=error`, the returned page is timestamp-descending, and with a
page covering the whole eligible set membership is exactly the filter. -/
theorem C3_conjunctive_filters_ordering_witness :
    errRec1 ∈ eligibleLogs errFilter scenarioStore
  ∧ List.Pairwise (fun a b => b.timestamp ≤ a.timestamp)
      (get_logs errFilter 1 0 scenarioStore).logs
  ∧ (errRec2 ∈ (get_logs errFilter 2 0 scenarioStore).logs ↔
      errRec2 ∈ scenarioStore.rows ∧ matchesFilters errFilter errRec2 = true) :=
  ⟨(C3_conjunctive_filters_ordering errFilter 1 0 scenarioStore errRec1).2.1.mpr
      ⟨by decide, by decide⟩,
   (C3_conjunctive_filters_ordering errFilter 1 0 scenarioStore errRec1).2.2.2.1,
   (C3_conjunctive_filters_ordering errFilter 2 0 scenarioStore errRec2).2.2.2.2
      rfl (by decide)⟩

/-- Active set produced by folding the per-connection send steps of one tick:
starting from a duplicate-free registry `L`, processing the connections of
`l` keeps exactly the connections that are not a failed member of `l`. -/
theorem foldl_sendStep_active (sendOk : Nat → Bool) :
    ∀ (l L : List Nat), L.Nodup →
      (l.foldl (fun acc c => if sendOk c then acc else acc.disconnect c)
          ({ active_connections := L } : ConnectionManager)).active_connections
        = L.filter (fun c => sendOk c || !decide (c ∈ l))
  | [], L, _ => by
    simp [List.foldl]
  | a :: l, L, hL => by
    simp only [List.foldl]
    by_cases ha : sendOk a = true
    · rw [ha, if_pos rfl, foldl_sendStep_active sendOk l L hL]
      refine List.filter_congr ?_
      intro x _
      by_cases hx : x = a
      · subst hx
        simp [ha]
      · simp [List.mem_cons, hx]
    · rw [Bool.not_eq_true] at ha
      rw [ha, if_neg Bool.false_ne_true]
      rw [show ({ active_connections := L } : ConnectionManager).disconnect a
            = { active_connections := L.erase a } from rfl]
      rw [foldl_sendStep_active sendOk l (L.erase a) (hL.erase a)]
      rw [List.Nodup.erase_eq_filter hL, List.filter_filter]
      refine List.filter_congr ?_
      intro x _
      by_cases hx : x = a
      · subst hx
        simp [ha]
      · simp [List.mem_cons, hx]

/-- Stepping one tick never adds a connection to the active set. -/
theorem foldl_sendStep_subset (sendOk : Nat → Bool) :
    ∀ (l : List Nat) (m : ConnectionManager) (x : Nat),
      x ∈ (l.foldl (fun acc c => if sendOk c then acc else acc.disconnect c)
          m).active_connections →
      x ∈ m.active_connections
  | [], _, _ => fun h => h
  | a :: l, m, x => by
    intro h
    simp only [List.foldl] at h
    have h2 := foldl_sendStep_subset sendOk l _ x h
    by_cases ha : sendOk a = true
    · rwa [ha, if_pos rfl] at h2
    · rw [Bool.not_eq_true] at ha
      rw [ha, if_neg Bool.false_ne_true] at h2
      exact (List.erase_sublist a m.active_connections).subset h2

/-- A connection absent from the active set receives no send on any
subsequent tick. -/
theorem runTicks_no_send (c : Nat) :
    ∀ (fs : List (Nat → Bool)) (m : ConnectionManager),
      c ∉ m.active_connections →
      ∀ s ∈ (runTicks fs m).2, c ∉ s
  | [], _, _ => by
    intro s hs
    simp [runTicks] at hs
  | f :: fs, m, hc => by
    intro s hs
    simp only [runTicks, List.mem_cons] at hs
    rcases hs with hs | hs
    · subst hs
      exact hc
    · refine runTicks_no_send c fs (sendTick f m).1 ?_ s hs
      intro hmem
      exact hc (foldl_sendStep_subset f m.active_connections m c hmem)

/-- C6: on a broadcast tick the snapshot send is attempted for every
connection active at tick time; a connection whose send fails is removed from
the active set (the others are kept, in order) and receives no send on any
subsequent tick; a connection whose send succeeds stays active and is
unaffected by the failures of others.  The tick itself is a total function:
a failed send never raises out of the loop. -/
theorem C6_broadcast_tick (m : ConnectionManager) (sendOk : Nat → Bool)
    (c : Nat) (h : m.active_connections.Nodup) :
    (sendTick sendOk m).2 = m.active_connections
  ∧ (sendTick sendOk m).1.active_connections
      = m.active_connections.filter sendOk
  ∧ (c ∈ m.active_connections → sendOk c = false →
      c ∉ (sendTick sendOk m).1.active_connections
      ∧ ∀ fs, ∀ s ∈ (runTicks fs (sendTick sendOk m).1).2, c ∉ s)
  ∧ (c ∈ m.active_connections → sendOk c = true →
      c ∈ (sendTick sendOk m).1.active_connections
      ∧ c ∈ (sendTick sendOk m).2) := by
  have hact : (sendTick sendOk m).1.active_connections
      = m.active_connections.filter sendOk := by
    have h1 : (sendTick sendOk m).1.active_connections
        = m.active_connections.filter
            (fun c => sendOk c || !decide (c ∈ m.active_connections)) :=
      foldl_sendStep_active sendOk m.active_connections m.active_connections h
    rw [h1]
    refine List.filter_congr ?_
    intro x hx
    simp [hx]
  refine ⟨rfl, hact, ?_, ?_⟩
  · intro hc hfail
    have hnot : c ∉ (sendTick sendOk m).1.active_connections := by
      rw [hact]
      intro hmem
      have := (List.mem_filter.mp hmem).2
      rw [hfail] at this
      exact Bool.false_ne_true this
    exact ⟨hnot, fun fs => runTicks_no_send c fs (sendTick sendOk m).1 hnot⟩
  · intro hc hok
    refine ⟨?_, hc⟩
    rw [hact]
    exact List.mem_filter.mpr ⟨hc, hok⟩

/-- Witness for C6: three active connections, connection 2's send fails: the
tick attempts all three, afterwards only 1 and 3 are active, 2 is sent
nothing on any later tick, and 1 is delivered to despite 2's failure. -/
theorem C6_broadcast_tick_witness :
    (sendTick okNot2 hub3).2 = hub3.active_connections
  ∧ (sendTick okNot2 hub3).1.active_connections
      = hub3.active_connections.filter okNot2
  ∧ (2 ∉ (sendTick okNot2 hub3).1.active_connections
      ∧ ∀ fs, ∀ s ∈ (runTicks fs (sendTick okNot2 hub3).1).2, (2 : Nat) ∉ s)
  ∧ (1 ∈ (sendTick okNot2 hub3).1.active_connections
      ∧ 1 ∈ (sendTick okNot2 hub3).2) := by
  refine ⟨(C6_broadcast_tick hub3 okNot2 2 (by decide)).1,
    (C6_broadcast_tick hub3 okNot2 2 (by decide)).2.1,
    (C6_broadcast_tick hub3 okNot2 2 (by decide)).2.2.1 (by decide) (by decide),
    (C6_broadcast_tick hub3 okNot2 1 (by decide)).2.2.2 (by decide) (by decide)⟩

/-- C7: for every request the middleware logs (write succeeding), the
persisted record's level is `error` when the response status is ≥ 500,
`warning` when it is in [400, 500), and `info` otherwise; the handler's
response object is returned unchanged alongside. -/
theorem C7_level_classification (st : Store) (now : List Char) (method : String)
    (path : List Char) (pidh unh rb : Option String) (resp : Response)
    (dur : ℚ) (h : shouldLogPath path = true) :
    ∃ rec : LogEvent,
      LoggingMiddleware.dispatch true st now method path pidh unh rb resp dur
        = .ok ({ rows := st.rows ++ [rec], nextId := st.nextId + 1 }, resp)
    ∧ rec.level = classifyLevel resp.status_code
    ∧ (500 ≤ resp.status_code → rec.level = "error")
    ∧ (400 ≤ resp.status_code → resp.status_code < 500 → rec.level = "warning")
    ∧ (resp.status_code < 400 → rec.level = "info") := by
  refine ⟨{ id := st.nextId
            timestamp := now
            profile_id := parseProfileIdHeader pidh
            username := usernameOrAnon (some (Option.getD unh ("anonymous")))
            level := classifyLevel resp.status_code
            category := some ("API")
            endpoint := some (String.mk path)
            method := some method
            message := method ++ " " ++ String.mk path
            request_body := Option.map (fun b => String.mk (b.data.take 1000)) rb
            response_status := some resp.status_code
            duration_ms := some dur }, ?_, rfl, ?_, ?_, ?_⟩
  · simp only [LoggingMiddleware.dispatch, h, if_pos rfl, log_event]
    rw [if_pos trivial, if_pos trivial]
  · intro h5
    unfold classifyLevel
    rw [if_pos h5]
  · intro h4 h5
    unfold classifyLevel
    rw [if_neg (by omega), if_pos h4]
  · intro h4
    unfold classifyLevel
    rw [if_neg (by omega), if_neg (by omega)]

/-- Witness for C7: a logged path with a 503 response yields a persisted
record classified by the status ranges. -/
theorem C7_level_classification_witness :
    ∃ rec : LogEvent,
      LoggingMiddleware.dispatch true emptyStore tsA ("GET")
          (("/api/profiles").data) none none none resp503 5
        = .ok ({ rows := emptyStore.rows ++ [rec]
                 nextId := emptyStore.nextId + 1 }, resp503)
    ∧ rec.level = classifyLevel resp503.status_code
    ∧ (500 ≤ resp503.status_code → rec.level = "error")
    ∧ (400 ≤ resp503.status_code → resp503.status_code < 500 → rec.level = "warning")
    ∧ (resp503.status_code < 400 → rec.level = "info") :=
  C7_level_classification emptyStore tsA ("GET") (("/api/profiles").data)
    none none none resp503 5 (by decide)

/-- C1 (code behaviour at the failing input): when the `system_logs` INSERT
performed by `log_event` fails during telemetry capture of a logged request,
`LoggingMiddleware.dispatch` does not swallow the failure — the error
propagates and the handler's response is not delivered; had the write
succeeded, the very same response object would have been returned. -/
theorem C1_persistence_failure_propagates :
    LoggingMiddleware.dispatch false emptyStore tsA ("GET")
        (("/api/profiles").data) none none none resp200 5
      = .error ("PersistenceError")
  ∧ (∃ st2, LoggingMiddleware.dispatch true emptyStore tsA ("GET")
        (("/api/profiles").data) none none none resp200 5
      = .ok (st2, resp200)) :=
  ⟨rfl, ⟨_, rfl⟩⟩

/-- C9 counterexample: the malformed timestamp `not-a-timestamp` supplied as
`since` is NOT rejected as a client-input error — validation succeeds, the
text is passed through, and it reaches the store layer, where the
lexicographic comparison silently filters out every record of the scenario
store. -/
theorem C9_counterexample_unvalidated_timestamp :
    validate_get_logs_query rawSinceBad
      = .ok { limit := 100, offset := 0
              filters := { profile_id := none, level := none, category := none
                           since := some (("not-a-timestamp").data)
                           until_ := none } }
  ∧ (get_logs { noFilters with since := some (("not-a-timestamp").data) }
        100 0 scenarioStore).logs = []
  ∧ scenarioStore.rows ≠ [] :=
  ⟨rfl, by decide, by decide⟩

/-- C9 as amended: `limit` defaults to 100 and `offset` to 0 when absent;
malformed integer parameters (`limit`, `offset`, `profile_id`) are rejected
as a client-input error before any store access; but the `since`/`until`
timestamp filters are passed through entirely unvalidated to the store's
comparison. -/
theorem C9_amended_validation (q : RawQuery) :
    (q.limit = none → ∀ p, validate_get_logs_query q = .ok p → p.limit = 100)
  ∧ (q.offset = none → ∀ p, validate_get_logs_query q = .ok p → p.offset = 0)
  ∧ (∀ s, q.limit = some s → parseIntRaw s = none →
      ∃ e, validate_get_logs_query q = .error e)
  ∧ (∀ s, q.offset = some s → parseIntRaw s = none →
      ∃ e, validate_get_logs_query q = .error e)
  ∧ (∀ s, q.profile_id = some s → parseIntRaw s = none →
      ∃ e, validate_get_logs_query q = .error e)
  ∧ (∀ p, validate_get_logs_query q = .ok p →
      p.filters.since = Option.map (fun s => s.data) q.since
      ∧ p.filters.until_ = Option.map (fun s => s.data) q.until_) := by
  refine ⟨?_, ?_, ?_, ?_, ?_, ?_⟩
  · intro hl p hp
    unfold validate_get_logs_query at hp
    rw [hl] at hp
    rcases h2 : parseOffsetParam q.offset with e2 | o <;> rw [h2] at hp <;>
      rcases h3 : parseProfileParam q.profile_id with e3 | pid <;> rw [h3] at hp <;>
      simp only [parseLimitParam] at hp <;> cases hp
    rfl
  · intro ho p hp
    unfold validate_get_logs_query at hp
    rw [ho] at hp
    rcases h1 : parseLimitParam q.limit with e1 | l <;> rw [h1] at hp <;>
      rcases h3 : parseProfileParam q.profile_id with e3 | pid <;> rw [h3] at hp <;>
      simp only [parseOffsetParam] at hp <;> cases hp
    rfl
  · intro s hs hparse
    unfold validate_get_logs_query
    rw [hs]
    have h1 : parseLimitParam (some s) = .error ("ClientInputError") := by
      simp [parseLimitParam, hparse]
    rw [h1]
    rcases h2 : parseOffsetParam q.offset with e2 | o <;>
      rcases h3 : parseProfileParam q.profile_id with e3 | pid <;>
      exact ⟨_, rfl⟩
  · intro s hs hparse
    unfold validate_get_logs_query
    rw [hs]
    have h2 : parseOffsetParam (some s) = .error ("ClientInputError") := by
      simp [parseOffsetParam, hparse]
    rw [h2]
    rcases h1 : parseLimitParam q.limit with e1 | l <;>
      rcases h3 : parseProfileParam q.profile_id with e3 | pid <;>
      exact ⟨_, rfl⟩
  · intro s hs hparse
    unfold validate_get_logs_query
    rw [hs]
    have h3 : parseProfileParam (some s) = .error ("ClientInputError") := by
      simp [parseProfileParam, hparse]
    rw [h3]
    rcases h1 : parseLimitParam q.limit with e1 | l <;>
      rcases h2 : parseOffsetParam q.offset with e2 | o <;>
      exact ⟨_, rfl⟩
  · intro p hp
    unfold validate_get_logs_query at hp
    rcases h1 : parseLimitParam q.limit with e1 | l <;> rw [h1] at hp <;>
      rcases h2 : parseOffsetParam q.offset with e2 | o <;> rw [h2] at hp <;>
      rcases h3 : parseProfileParam q.profile_id with e3 | pid <;> rw [h3] at hp <;>
      cases hp
    exact ⟨rfl, rfl⟩

/-- Witness for C9 (amended): a non-numeric `limit`, a non-numeric `offset`
and a non-numeric `profile_id` are each rejected, and for an accepted query
the `since` text is passed through verbatim. -/
theorem C9_amended_validation_witness :
    (∃ e, validate_get_logs_query
        { limit := some ("ten"), offset := none, profile_id := none
          level := none, category := none, since := none, until_ := none }
      = .error e)
  ∧ (∃ e, validate_get_logs_query
        { limit := none, offset := some ("7.5"), profile_id := none
          level := none, category := none, since := none, until_ := none }
      = .error e)
  ∧ (∃ e, validate_get_logs_query
        { limit := none, offset := none, profile_id := some ("abc")
          level := none, category := none, since := none, until_ := none }
      = .error e)
  ∧ (∀ p, validate_get_logs_query rawSinceBad = .ok p →
      p.filters.since = Option.map (fun s => s.data) rawSinceBad.since
      ∧ p.filters.until_ = Option.map (fun s => s.data) rawSinceBad.until_) := by
  refine ⟨?_, ?_, ?_, (C9_amended_validation rawSinceBad).2.2.2.2.2⟩
  · exact (C9_amended_validation
      { limit := some ("ten"), offset := none, profile_id := none
        level := none, category := none, since := none, until_ := none }).2.2.1
      ("ten") rfl (by decide)
  · exact (C9_amended_validation
      { limit := none, offset := some ("7.5"), profile_id := none
        level := none, category := none, since := none, until_ := none }).2.2.2.1
      ("7.5") rfl (by decide)
  · exact (C9_amended_validation
      { limit := none, offset := none, profile_id := some ("abc")
        level := none, category := none, since := none, until_ := none }).2.2.2.2.1
      ("abc") rfl (by decide)
